import Mathlib

/-!
Verification of the Living-Land spatial CRUD backend (src/app.py), a Flask
application exposing Point and Polygon records over HTTP, persisted via
SQLAlchemy in a relational store.

Shallow embedding choices:
* A table is an association list `List (Nat × rec)` keyed by the integer
  primary key, together with an auto-increment counter (MySQL assigns ids
  1, 2, 3, ... to successive inserts; the app never deletes rows).
* `PointData` rows carry `name`, `latitude`, `longitude` as total fields,
  mirroring the `nullable=False` columns; coordinates of polygons are the
  raw `db.Text` string.  Latitude/longitude are Python floats in the
  source, but no arithmetic is ever performed on them — they are only
  stored and echoed back — so they are embedded as rationals (a faithful
  carrier for the JSON numerals that flow through the handlers).
* A JSON request body is a record of `Option` fields: `none` models a key
  missing from the posted dictionary; in Python, reading a missing key via
  `data['k']` raises `KeyError`, embedded as `Except.error (.keyError k)`.
  `db.session.commit()` is what makes mutations durable, and the handlers
  either reach it or raise first, so a handler returns
  `Except Fault (Resp × DB)`: on a fault no new `DB` is produced and the
  request leaves storage as it was.
* `create_tables` (the `before_request` hook) is embedded as a state
  transformer on `AppState`, which carries the `tables_initialized` flag
  and an instrumentation counter recording each invocation of
  `db.create_all()`.
-/

/-- Faults a handler can raise: `data['k']` on a body missing key `k`
raises `KeyError(k)` in Python (src/app.py lines 75-85, 126-135). -/
inductive Fault where
  | keyError (k : String)
deriving DecidableEq, Repr

/-- A persisted `point_data` row minus its primary key (src/app.py 16-30).
All three columns are `nullable=False`, hence total fields. -/
structure PointRec where
  name : String
  latitude : Rat
  longitude : Rat
deriving DecidableEq, Repr

/-- A persisted `polygon_data` row minus its primary key (src/app.py 32-44).
`coordinates` is `db.Text`: an opaque string, never parsed. -/
structure PolygonRec where
  name : String
  coordinates : String
deriving DecidableEq, Repr

/-- JSON body for POST/PUT /point: each key may be absent. -/
structure PointBody where
  id : Option Nat
  name : Option String
  latitude : Option Rat
  longitude : Option Rat
deriving DecidableEq, Repr

/-- JSON body for POST/PUT /polygon: each key may be absent. -/
structure PolygonBody where
  id : Option Nat
  name : Option String
  coordinates : Option String
deriving DecidableEq, Repr

/-- The relational store: both tables plus their auto-increment counters. -/
structure DB where
  points : List (Nat × PointRec)
  polygons : List (Nat × PolygonRec)
  nextPointId : Nat
  nextPolygonId : Nat
deriving DecidableEq, Repr

/-- Empty store, as produced by `db.create_all()` on a fresh database;
MySQL auto-increment starts at 1. -/
def DB.empty : DB := ⟨[], [], 1, 1⟩

/-- Primary-key lookup, the embedding of `Model.query.get(id)`:
first row whose key matches, `None` when absent. -/
def findById {α : Type} (l : List (Nat × α)) (i : Nat) : Option α :=
  match l with
  | [] => none
  | (j, v) :: t => if j = i then some v else findById t i

/-- In-place overwrite of the row keyed `i`, the embedding of mutating the
fetched ORM object and committing: the key is untouched, only the value
columns change. -/
def updateById {α : Type} (l : List (Nat × α)) (i : Nat) (v : α) : List (Nat × α) :=
  l.map (fun p => if p.1 = i then (i, v) else p)

/-- `data['k']`: the value when the key is present, `KeyError(k)` otherwise. -/
def getKey {α : Type} (v : Option α) (k : String) : Except Fault α :=
  match v with
  | some a => Except.ok a
  | none => Except.error (Fault.keyError k)

/-- HTTP method of the create-or-update routes. -/
inductive Method where
  | POST
  | PUT
deriving DecidableEq, Repr

/-- Response bodies the four handlers can serialize (src/app.py 82, 87,
104-110, 133, 137, 154-159). -/
inductive Body where
  | msg (s : String)
  | err (s : String)
  | pointJson (id : Nat) (name : String) (latitude longitude : Rat)
  | polyJson (id : Nat) (name : String) (coordinates : String)
deriving DecidableEq, Repr

/-- An HTTP response: status code and JSON body. -/
structure Resp where
  status : Nat
  body : Body
deriving DecidableEq, Repr

/-- `handle_point` (src/app.py 62-87).  POST constructs a `PointData` from
the three body fields (raising on a missing key) and commits it under the
next auto-increment id.  PUT reads `data['id']`, looks the row up, returns
404 *before* the commit when absent, otherwise overwrites the three
mutable columns and commits. -/
def handle_point (method : Method) (data : PointBody) (db : DB) :
    Except Fault (Resp × DB) := do
  match method with
  | Method.POST =>
      let name ← getKey data.name "name"
      let latitude ← getKey data.latitude "latitude"
      let longitude ← getKey data.longitude "longitude"
      let i := db.nextPointId
      let db' : DB :=
        { db with points := db.points ++ [(i, ⟨name, latitude, longitude⟩)],
                  nextPointId := i + 1 }
      pure (⟨200, Body.msg "Point saved successfully"⟩, db')
  | Method.PUT =>
      let i ← getKey data.id "id"
      match findById db.points i with
      | none => pure (⟨404, Body.err "Point not found"⟩, db)
      | some _ =>
          let name ← getKey data.name "name"
          let latitude ← getKey data.latitude "latitude"
          let longitude ← getKey data.longitude "longitude"
          let db' : DB :=
            { db with points := updateById db.points i ⟨name, latitude, longitude⟩ }
          pure (⟨200, Body.msg "Point saved successfully"⟩, db')

/-- `get_point` (src/app.py 90-110): pure read, 404 on a miss, otherwise
the row serialized with its id. -/
def get_point (db : DB) (point_id : Nat) : Resp :=
  match findById db.points point_id with
  | none => ⟨404, Body.err "Point not found"⟩
  | some p => ⟨200, Body.pointJson point_id p.name p.latitude p.longitude⟩

/-- `handle_polygon` (src/app.py 113-137), structurally identical to
`handle_point` with `coordinates` replacing latitude/longitude. -/
def handle_polygon (method : Method) (data : PolygonBody) (db : DB) :
    Except Fault (Resp × DB) := do
  match method with
  | Method.POST =>
      let name ← getKey data.name "name"
      let coordinates ← getKey data.coordinates "coordinates"
      let i := db.nextPolygonId
      let db' : DB :=
        { db with polygons := db.polygons ++ [(i, ⟨name, coordinates⟩)],
                  nextPolygonId := i + 1 }
      pure (⟨200, Body.msg "Polygon saved successfully"⟩, db')
  | Method.PUT =>
      let i ← getKey data.id "id"
      match findById db.polygons i with
      | none => pure (⟨404, Body.err "Polygon not found"⟩, db)
      | some _ =>
          let name ← getKey data.name "name"
          let coordinates ← getKey data.coordinates "coordinates"
          let db' : DB :=
            { db with polygons := updateById db.polygons i ⟨name, coordinates⟩ }
          pure (⟨200, Body.msg "Polygon saved successfully"⟩, db')

/-- `get_polygon` (src/app.py 140-159). -/
def get_polygon (db : DB) (polygon_id : Nat) : Resp :=
  match findById db.polygons polygon_id with
  | none => ⟨404, Body.err "Polygon not found"⟩
  | some p => ⟨200, Body.polyJson polygon_id p.name p.coordinates⟩

/-- Whole-process state: the store, the lazy-init flag (src/app.py 13) and
a counter instrumenting each execution of `db.create_all()`
(src/app.py 56). -/
structure AppState where
  db : DB
  tables_initialized : Bool
  createAllCount : Nat
deriving DecidableEq, Repr

/-- Process start: flag false, `db.create_all()` never yet run
(src/app.py 13).  The backing database is empty. -/
def AppState.init : AppState := ⟨DB.empty, false, 0⟩

/-- `create_tables` (src/app.py 47-57), the `before_request` hook: when
the flag is false, run `db.create_all()` (idempotent DDL — on the model
side the store is unchanged, only the instrumentation counter ticks) and
set the flag; otherwise do nothing. -/
def create_tables (s : AppState) : AppState :=
  if s.tables_initialized then s
  else { s with createAllCount := s.createAllCount + 1, tables_initialized := true }

/-- One inbound HTTP request, dispatched by route and method. -/
inductive Request where
  | pointCU (method : Method) (data : PointBody)
  | pointGet (point_id : Nat)
  | polygonCU (method : Method) (data : PolygonBody)
  | polygonGet (polygon_id : Nat)
deriving DecidableEq, Repr

/-- Full request processing: the `before_request` hook runs first, then
the routed handler.  A handler fault aborts the request before its commit,
so the store is left as the hook left it. -/
def handleRequest (s : AppState) (r : Request) : Except Fault Resp × AppState :=
  let s1 := create_tables s
  match r with
  | Request.pointCU method data =>
      match handle_point method data s1.db with
      | Except.ok (resp, db') => (Except.ok resp, { s1 with db := db' })
      | Except.error f => (Except.error f, s1)
  | Request.pointGet i => (Except.ok (get_point s1.db i), s1)
  | Request.polygonCU method data =>
      match handle_polygon method data s1.db with
      | Except.ok (resp, db') => (Except.ok resp, { s1 with db := db' })
      | Except.error f => (Except.error f, s1)
  | Request.polygonGet i => (Except.ok (get_polygon s1.db i), s1)

/-- A sequential run of the process over a list of inbound requests. -/
def runAll (s : AppState) (rs : List Request) : AppState :=
  match rs with
  | [] => s
  | r :: t => runAll (handleRequest s r).2 t

/-- Auto-increment soundness: every key already in a table is below that
table's counter.  Holds of the empty store and is preserved by every
request (proved below); it is what makes freshly assigned ids unused. -/
def WF (db : DB) : Prop :=
  (∀ p ∈ db.points, p.1 < db.nextPointId) ∧
  (∀ q ∈ db.polygons, q.1 < db.nextPolygonId)

/-! ## Helper lemmas about the table operations -/

theorem findById_eq_none {α : Type} (l : List (Nat × α)) (i : Nat)
    (h : ∀ p ∈ l, p.1 ≠ i) : findById l i = none := by
  induction l with
  | nil => rfl
  | cons hd t ih =>
      obtain ⟨j, v⟩ := hd
      simp only [findById]
      rw [if_neg (h (j, v) (List.mem_cons_self _ _))]
      exact ih fun p hp => h p (List.mem_cons_of_mem _ hp)

theorem mem_of_findById {α : Type} (l : List (Nat × α)) (i : Nat) (v : α)
    (h : findById l i = some v) : (i, v) ∈ l := by
  induction l with
  | nil => simp [findById] at h
  | cons hd t ih =>
      obtain ⟨j, w⟩ := hd
      simp only [findById] at h
      by_cases hj : j = i
      · rw [if_pos hj] at h
        subst hj
        cases h
        exact List.mem_cons_self _ _
      · rw [if_neg hj] at h
        exact List.mem_cons_of_mem _ (ih h)

theorem findById_append_fresh {α : Type} (l : List (Nat × α)) (i : Nat) (v : α)
    (h : findById l i = none) : findById (l ++ [(i, v)]) i = some v := by
  induction l with
  | nil => simp [findById]
  | cons hd t ih =>
      obtain ⟨j, w⟩ := hd
      simp only [findById] at h ⊢
      by_cases hj : j = i
      · rw [if_pos hj] at h
        exact absurd h (by simp)
      · rw [if_neg hj] at h ⊢
        exact ih h

theorem findById_append_other {α : Type} (l : List (Nat × α)) (i j : Nat) (v : α)
    (h : j ≠ i) : findById (l ++ [(j, v)]) i = findById l i := by
  induction l with
  | nil => simp [findById, h]
  | cons hd t ih =>
      obtain ⟨k, w⟩ := hd
      simp only [findById]
      by_cases hk : k = i
      · rw [if_pos hk, if_pos hk]
      · rw [if_neg hk, if_neg hk]
        exact ih

theorem findById_cons {α : Type} (k : Nat) (u : α) (t : List (Nat × α)) (i : Nat) :
    findById ((k, u) :: t) i = if k = i then some u else findById t i := rfl

theorem updateById_cons {α : Type} (k : Nat) (u : α) (t : List (Nat × α)) (i : Nat) (v : α) :
    updateById ((k, u) :: t) i v = (if k = i then (i, v) else (k, u)) :: updateById t i v := rfl

theorem findById_updateById_self {α : Type} (l : List (Nat × α)) (i : Nat) (v w : α)
    (h : findById l i = some w) : findById (updateById l i v) i = some v := by
  induction l with
  | nil => simp [findById] at h
  | cons hd t ih =>
      obtain ⟨j, u⟩ := hd
      rw [findById_cons] at h
      rw [updateById_cons]
      by_cases hj : j = i
      · rw [if_pos hj, findById_cons, if_pos rfl]
      · rw [if_neg hj] at h
        rw [if_neg hj, findById_cons, if_neg hj]
        exact ih h

theorem findById_updateById_other {α : Type} (l : List (Nat × α)) (i j : Nat) (v : α)
    (h : j ≠ i) : findById (updateById l i v) j = findById l j := by
  have hij : ¬ i = j := fun hh => h hh.symm
  induction l with
  | nil => rfl
  | cons hd t ih =>
      obtain ⟨k, u⟩ := hd
      rw [updateById_cons]
      by_cases hk : k = i
      · rw [if_pos hk, findById_cons, findById_cons, if_neg hij,
          if_neg (fun hh : k = j => hij (hk ▸ hh))]
        exact ih
      · rw [if_neg hk, findById_cons, findById_cons]
        by_cases hkj : k = j
        · rw [if_pos hkj, if_pos hkj]
        · rw [if_neg hkj, if_neg hkj]
          exact ih

theorem keys_updateById {α : Type} (l : List (Nat × α)) (i : Nat) (v : α) :
    (updateById l i v).map Prod.fst = l.map Prod.fst := by
  induction l with
  | nil => rfl
  | cons hd t ih =>
      obtain ⟨k, u⟩ := hd
      simp only [updateById, List.map_cons] at ih ⊢
      by_cases hk : k = i
      · rw [if_pos hk, hk]
        simpa using ih
      · rw [if_neg hk]
        simpa using ih

/-! ## Computation lemmas for the handlers -/

theorem create_tables_db (s : AppState) : (create_tables s).db = s.db := by
  unfold create_tables
  split <;> rfl

theorem create_tables_inited (s : AppState) (h : s.tables_initialized = true) :
    create_tables s = s := by
  unfold create_tables
  rw [h]
  rfl

theorem create_tables_fresh (s : AppState) (h : s.tables_initialized = false) :
    create_tables s =
      { s with createAllCount := s.createAllCount + 1, tables_initialized := true } := by
  unfold create_tables
  rw [h]
  rfl

theorem handle_point_post_ok (db : DB) (di : Option Nat) (n : String) (la lo : Rat) :
    handle_point Method.POST ⟨di, some n, some la, some lo⟩ db =
      Except.ok (⟨200, Body.msg "Point saved successfully"⟩,
        { db with points := db.points ++ [(db.nextPointId, ⟨n, la, lo⟩)],
                  nextPointId := db.nextPointId + 1 }) := rfl

theorem handle_point_put_miss (db : DB) (i : Nat) (dn : Option String)
    (dla dlo : Option Rat) (hmiss : findById db.points i = none) :
    handle_point Method.PUT ⟨some i, dn, dla, dlo⟩ db =
      Except.ok (⟨404, Body.err "Point not found"⟩, db) := by
  simp [handle_point, getKey, hmiss, Except.instMonad, Except.bind, Except.pure]

theorem handle_point_put_hit (db : DB) (i : Nat) (n : String) (la lo : Rat)
    (w : PointRec) (hhit : findById db.points i = some w) :
    handle_point Method.PUT ⟨some i, some n, some la, some lo⟩ db =
      Except.ok (⟨200, Body.msg "Point saved successfully"⟩,
        { db with points := updateById db.points i ⟨n, la, lo⟩ }) := by
  simp [handle_point, getKey, hhit, Except.instMonad, Except.bind, Except.pure, Except.map]

theorem handle_polygon_post_ok (db : DB) (dj : Option Nat) (n : String) (c : String) :
    handle_polygon Method.POST ⟨dj, some n, some c⟩ db =
      Except.ok (⟨200, Body.msg "Polygon saved successfully"⟩,
        { db with polygons := db.polygons ++ [(db.nextPolygonId, ⟨n, c⟩)],
                  nextPolygonId := db.nextPolygonId + 1 }) := rfl

theorem handle_polygon_put_miss (db : DB) (i : Nat) (dn : Option String)
    (dc : Option String) (hmiss : findById db.polygons i = none) :
    handle_polygon Method.PUT ⟨some i, dn, dc⟩ db =
      Except.ok (⟨404, Body.err "Polygon not found"⟩, db) := by
  simp [handle_polygon, getKey, hmiss, Except.instMonad, Except.bind, Except.pure]

theorem handle_polygon_put_hit (db : DB) (i : Nat) (n : String) (c : String)
    (w : PolygonRec) (hhit : findById db.polygons i = some w) :
    handle_polygon Method.PUT ⟨some i, some n, some c⟩ db =
      Except.ok (⟨200, Body.msg "Polygon saved successfully"⟩,
        { db with polygons := updateById db.polygons i ⟨n, c⟩ }) := by
  simp [handle_polygon, getKey, hhit, Except.instMonad, Except.bind, Except.pure, Except.map]

theorem get_point_miss (db : DB) (i : Nat) (hmiss : findById db.points i = none) :
    get_point db i = ⟨404, Body.err "Point not found"⟩ := by
  simp [get_point, hmiss]

theorem get_point_hit (db : DB) (i : Nat) (p : PointRec)
    (hhit : findById db.points i = some p) :
    get_point db i = ⟨200, Body.pointJson i p.name p.latitude p.longitude⟩ := by
  simp [get_point, hhit]

theorem get_polygon_miss (db : DB) (i : Nat) (hmiss : findById db.polygons i = none) :
    get_polygon db i = ⟨404, Body.err "Polygon not found"⟩ := by
  simp [get_polygon, hmiss]

theorem get_polygon_hit (db : DB) (i : Nat) (q : PolygonRec)
    (hhit : findById db.polygons i = some q) :
    get_polygon db i = ⟨200, Body.polyJson i q.name q.coordinates⟩ := by
  simp [get_polygon, hhit]

/-! ## Invariant bookkeeping -/

theorem WF_empty : WF DB.empty :=
  ⟨fun p hp => absurd hp (List.not_mem_nil p), fun q hq => absurd hq (List.not_mem_nil q)⟩

/-! ## Claim theorems -/

/-- C1: for every id not present in storage, a PUT to /point (resp.
/polygon) carrying that id returns HTTP 404 with body
`{"error": "Point not found"}` (resp. `"Polygon not found"`) and leaves
the storage state unchanged, and a GET on /point/{id} (resp.
/polygon/{id}) returns the same 404 body with no side effect on storage:
in each case the final process state is exactly `create_tables s`, whose
store equals the original store `s.db` (last conjunct). -/
theorem c1_put_get_nonexistent_id_404 (s : AppState) (i : Nat)
    (pb : PointBody) (qb : PolygonBody)
    (hpb : pb.id = some i) (hqb : qb.id = some i)
    (hp : findById s.db.points i = none)
    (hq : findById s.db.polygons i = none) :
    handleRequest s (Request.pointCU Method.PUT pb) =
      (Except.ok ⟨404, Body.err "Point not found"⟩, create_tables s) ∧
    handleRequest s (Request.polygonCU Method.PUT qb) =
      (Except.ok ⟨404, Body.err "Polygon not found"⟩, create_tables s) ∧
    handleRequest s (Request.pointGet i) =
      (Except.ok ⟨404, Body.err "Point not found"⟩, create_tables s) ∧
    handleRequest s (Request.polygonGet i) =
      (Except.ok ⟨404, Body.err "Polygon not found"⟩, create_tables s) ∧
    (create_tables s).db = s.db := by
  obtain ⟨pid, pn, pla, plo⟩ := pb
  obtain ⟨qid, qn, qc⟩ := qb
  obtain rfl : pid = some i := hpb
  obtain rfl : qid = some i := hqb
  have hp1 : findById (create_tables s).db.points i = none := by
    rw [create_tables_db]
    exact hp
  have hq1 : findById (create_tables s).db.polygons i = none := by
    rw [create_tables_db]
    exact hq
  refine ⟨?_, ?_, ?_, ?_, create_tables_db s⟩
  · simp only [handleRequest]
    rw [handle_point_put_miss _ _ _ _ _ hp1]
  · simp only [handleRequest]
    rw [handle_polygon_put_miss _ _ _ _ hq1]
  · simp only [handleRequest]
    rw [get_point_miss _ _ hp1]
  · simp only [handleRequest]
    rw [get_polygon_miss _ _ hq1]

theorem c1_witness :
    handleRequest AppState.init
        (Request.pointCU Method.PUT ⟨some 999, some "x", some 0, some 0⟩) =
      (Except.ok ⟨404, Body.err "Point not found"⟩, create_tables AppState.init) ∧
    handleRequest AppState.init (Request.polygonGet 999) =
      (Except.ok ⟨404, Body.err "Polygon not found"⟩, create_tables AppState.init) :=
  ⟨(c1_put_get_nonexistent_id_404 AppState.init 999 ⟨some 999, some "x", some 0, some 0⟩
      ⟨some 999, some "x", some "[]"⟩ rfl rfl rfl rfl).1,
   (c1_put_get_nonexistent_id_404 AppState.init 999 ⟨some 999, some "x", some 0, some 0⟩
      ⟨some 999, some "x", some "[]"⟩ rfl rfl rfl rfl).2.2.2.1⟩

/-- C2: a PUT carrying an id present in storage, with a well-typed body,
overwrites exactly the mutable fields of that row (`name`, `latitude`,
`longitude` for a point; `name`, `coordinates` for a polygon): the
updated table holds the new field values under the same id, every other
id resolves to exactly what it did before, the key sequence of the table
(and hence the row's id) is unchanged, and the other table and both
counters are untouched (explicit in the returned store). -/
theorem c2_put_existing_overwrites_mutable_fields (db : DB) (i : Nat)
    (n : String) (la lo : Rat) (old : PointRec)
    (hp : findById db.points i = some old)
    (i2 : Nat) (m c : String) (oldq : PolygonRec)
    (hq : findById db.polygons i2 = some oldq) :
    (handle_point Method.PUT ⟨some i, some n, some la, some lo⟩ db =
       Except.ok (⟨200, Body.msg "Point saved successfully"⟩,
         { db with points := updateById db.points i ⟨n, la, lo⟩ })) ∧
    findById (updateById db.points i ⟨n, la, lo⟩) i = some ⟨n, la, lo⟩ ∧
    (∀ j, j ≠ i → findById (updateById db.points i ⟨n, la, lo⟩) j = findById db.points j) ∧
    (updateById db.points i ⟨n, la, lo⟩).map Prod.fst = db.points.map Prod.fst ∧
    (handle_polygon Method.PUT ⟨some i2, some m, some c⟩ db =
       Except.ok (⟨200, Body.msg "Polygon saved successfully"⟩,
         { db with polygons := updateById db.polygons i2 ⟨m, c⟩ })) ∧
    findById (updateById db.polygons i2 ⟨m, c⟩) i2 = some ⟨m, c⟩ ∧
    (∀ j, j ≠ i2 → findById (updateById db.polygons i2 ⟨m, c⟩) j = findById db.polygons j) ∧
    (updateById db.polygons i2 ⟨m, c⟩).map Prod.fst = db.polygons.map Prod.fst :=
  ⟨handle_point_put_hit db i n la lo old hp,
   findById_updateById_self _ _ _ _ hp,
   fun _ hj => findById_updateById_other _ _ _ _ hj,
   keys_updateById _ _ _,
   handle_polygon_put_hit db i2 m c oldq hq,
   findById_updateById_self _ _ _ _ hq,
   fun _ hj => findById_updateById_other _ _ _ _ hj,
   keys_updateById _ _ _⟩

theorem c2_witness :
    handle_point Method.PUT ⟨some 1, some "B", some 3, some 4⟩
        ⟨[(1, ⟨"A", 1, 2⟩)], [(1, ⟨"P", "[]"⟩)], 2, 2⟩ =
      Except.ok (⟨200, Body.msg "Point saved successfully"⟩,
        ⟨updateById [(1, ⟨"A", 1, 2⟩)] 1 ⟨"B", 3, 4⟩, [(1, ⟨"P", "[]"⟩)], 2, 2⟩) ∧
    findById (updateById [((1 : Nat), (⟨"A", 1, 2⟩ : PointRec))] 1 ⟨"B", 3, 4⟩) 1 =
      some ⟨"B", 3, 4⟩ :=
  ⟨(c2_put_existing_overwrites_mutable_fields
      ⟨[(1, ⟨"A", 1, 2⟩)], [(1, ⟨"P", "[]"⟩)], 2, 2⟩ 1 "B" 3 4 ⟨"A", 1, 2⟩ rfl
      1 "Q" "[[0,0]]" ⟨"P", "[]"⟩ rfl).1,
   (c2_put_existing_overwrites_mutable_fields
      ⟨[(1, ⟨"A", 1, 2⟩)], [(1, ⟨"P", "[]"⟩)], 2, 2⟩ 1 "B" 3 4 ⟨"A", 1, 2⟩ rfl
      1 "Q" "[[0,0]]" ⟨"P", "[]"⟩ rfl).2.1⟩

/-- C3: for every valid create payload, POST /point (resp. /polygon)
persists a new row under the table's next auto-increment id — an integer
distinct from every id already in that table (second and third
conjuncts, from the auto-increment invariant `WF`) — returns HTTP 200
with body `{"message": "Point saved successfully"}` (resp.
`"Polygon saved successfully"`), and never fails on well-typed input
(the result is `Except.ok`, whatever the store).  The response body is
the literal constant `Body.msg ...`, which carries no id field, so the
assigned id never appears in the response. -/
theorem c3_post_persists_fresh_id (db : DB) (hwf : WF db)
    (di : Option Nat) (n : String) (la lo : Rat)
    (dj : Option Nat) (m c : String) :
    (handle_point Method.POST ⟨di, some n, some la, some lo⟩ db =
       Except.ok (⟨200, Body.msg "Point saved successfully"⟩,
         { db with points := db.points ++ [(db.nextPointId, ⟨n, la, lo⟩)],
                   nextPointId := db.nextPointId + 1 })) ∧
    findById db.points db.nextPointId = none ∧
    (∀ p ∈ db.points, p.1 ≠ db.nextPointId) ∧
    (handle_polygon Method.POST ⟨dj, some m, some c⟩ db =
       Except.ok (⟨200, Body.msg "Polygon saved successfully"⟩,
         { db with polygons := db.polygons ++ [(db.nextPolygonId, ⟨m, c⟩)],
                   nextPolygonId := db.nextPolygonId + 1 })) ∧
    findById db.polygons db.nextPolygonId = none ∧
    (∀ q ∈ db.polygons, q.1 ≠ db.nextPolygonId) :=
  ⟨handle_point_post_ok db di n la lo,
   findById_eq_none _ _ (fun p hp => Nat.ne_of_lt (hwf.1 p hp)),
   fun p hp => Nat.ne_of_lt (hwf.1 p hp),
   handle_polygon_post_ok db dj m c,
   findById_eq_none _ _ (fun q hq => Nat.ne_of_lt (hwf.2 q hq)),
   fun q hq => Nat.ne_of_lt (hwf.2 q hq)⟩

theorem c3_witness :
    handle_point Method.POST ⟨none, some "A", some 1, some 2⟩ DB.empty =
      Except.ok (⟨200, Body.msg "Point saved successfully"⟩,
        ⟨[((1 : Nat), (⟨"A", 1, 2⟩ : PointRec))], [], 2, 1⟩) ∧
    findById (DB.empty).points (DB.empty).nextPointId = none :=
  ⟨(c3_post_persists_fresh_id DB.empty WF_empty none "A" 1 2 none "P" "[[0,0]]").1,
   (c3_post_persists_fresh_id DB.empty WF_empty none "A" 1 2 none "P" "[[0,0]]").2.1⟩

/-- C4: creating a record via POST and then reading it back by its
assigned id (the table's auto-increment counter at creation time) via
the GET endpoint yields exactly the field values of the input payload,
with the response also carrying that id, for points and for polygons. -/
theorem c4_create_then_read_roundtrip (db : DB) (hwf : WF db)
    (di : Option Nat) (n : String) (la lo : Rat)
    (dj : Option Nat) (m c : String) :
    (∃ db1, handle_point Method.POST ⟨di, some n, some la, some lo⟩ db =
        Except.ok (⟨200, Body.msg "Point saved successfully"⟩, db1) ∧
      get_point db1 db.nextPointId =
        ⟨200, Body.pointJson db.nextPointId n la lo⟩) ∧
    (∃ db2, handle_polygon Method.POST ⟨dj, some m, some c⟩ db =
        Except.ok (⟨200, Body.msg "Polygon saved successfully"⟩, db2) ∧
      get_polygon db2 db.nextPolygonId =
        ⟨200, Body.polyJson db.nextPolygonId m c⟩) := by
  constructor
  · refine ⟨_, handle_point_post_ok db di n la lo, ?_⟩
    have hfresh : findById db.points db.nextPointId = none :=
      findById_eq_none _ _ (fun p hp => Nat.ne_of_lt (hwf.1 p hp))
    exact get_point_hit _ _ ⟨n, la, lo⟩ (findById_append_fresh _ _ _ hfresh)
  · refine ⟨_, handle_polygon_post_ok db dj m c, ?_⟩
    have hfresh : findById db.polygons db.nextPolygonId = none :=
      findById_eq_none _ _ (fun q hq => Nat.ne_of_lt (hwf.2 q hq))
    exact get_polygon_hit _ _ ⟨m, c⟩ (findById_append_fresh _ _ _ hfresh)

theorem c4_witness :
    ∃ db1, handle_point Method.POST ⟨none, some "A", some 1, some 2⟩ DB.empty =
        Except.ok (⟨200, Body.msg "Point saved successfully"⟩, db1) ∧
      get_point db1 (DB.empty).nextPointId =
        ⟨200, Body.pointJson (DB.empty).nextPointId "A" 1 2⟩ :=
  (c4_create_then_read_roundtrip DB.empty WF_empty none "A" 1 2 none "P" "[[0,0]]").1

/-- C5: any string submitted as the `coordinates` field of a polygon —
the statement is universally quantified over the string, so malformed or
non-JSON content is included — is stored byte-for-byte as received (the
persisted row is literally `⟨name, s⟩`) and returned unmodified by GET,
both on create (POST) and on update of an existing row (PUT).  The
handlers never inspect the string: `coordinates` flows from the body to
the store and back with no parsing or structural validation (it has the
opaque type `String` throughout the embedding, mirroring the `db.Text`
column). -/
theorem c5_coordinates_stored_verbatim (db : DB) (hwf : WF db)
    (dj : Option Nat) (m m2 : String) (s1 s2 : String)
    (i : Nat) (oldq : PolygonRec)
    (hq : findById db.polygons i = some oldq) :
    (∃ db1, handle_polygon Method.POST ⟨dj, some m, some s1⟩ db =
        Except.ok (⟨200, Body.msg "Polygon saved successfully"⟩, db1) ∧
      findById db1.polygons db.nextPolygonId = some ⟨m, s1⟩ ∧
      get_polygon db1 db.nextPolygonId =
        ⟨200, Body.polyJson db.nextPolygonId m s1⟩) ∧
    (∃ db2, handle_polygon Method.PUT ⟨some i, some m2, some s2⟩ db =
        Except.ok (⟨200, Body.msg "Polygon saved successfully"⟩, db2) ∧
      findById db2.polygons i = some ⟨m2, s2⟩ ∧
      get_polygon db2 i = ⟨200, Body.polyJson i m2 s2⟩) := by
  constructor
  · refine ⟨_, handle_polygon_post_ok db dj m s1, ?_, ?_⟩
    · exact findById_append_fresh _ _ _
        (findById_eq_none _ _ (fun q hq2 => Nat.ne_of_lt (hwf.2 q hq2)))
    · exact get_polygon_hit _ _ ⟨m, s1⟩ (findById_append_fresh _ _ _
        (findById_eq_none _ _ (fun q hq2 => Nat.ne_of_lt (hwf.2 q hq2))))
  · refine ⟨_, handle_polygon_put_hit db i m2 s2 oldq hq, ?_, ?_⟩
    · exact findById_updateById_self _ _ _ _ hq
    · exact get_polygon_hit _ _ ⟨m2, s2⟩ (findById_updateById_self _ _ _ _ hq)

theorem c5_witness :
    ∃ db2, handle_polygon Method.PUT
        ⟨some 1, some "Q", some "not json at all ]["⟩
        ⟨[], [(1, ⟨"P", "x"⟩)], 1, 2⟩ =
        Except.ok (⟨200, Body.msg "Polygon saved successfully"⟩, db2) ∧
      findById db2.polygons 1 = some ⟨"Q", "not json at all ]["⟩ ∧
      get_polygon db2 1 = ⟨200, Body.polyJson 1 "Q" "not json at all ]["⟩ :=
  (c5_coordinates_stored_verbatim ⟨[], [(1, ⟨"P", "x"⟩)], 1, 2⟩
    ⟨fun p hp => absurd hp (List.not_mem_nil p),
     fun q hq => by
       rcases List.mem_singleton.mp hq with h
       rw [h]
       exact Nat.one_lt_two⟩
    none "M" "Q" "whatever" "not json at all ][" 1 ⟨"P", "x"⟩ rfl).2

theorem handleRequest_flag (s : AppState) (r : Request) :
    (handleRequest s r).2.tables_initialized = (create_tables s).tables_initialized ∧
    (handleRequest s r).2.createAllCount = (create_tables s).createAllCount := by
  cases r with
  | pointCU method data =>
      simp only [handleRequest]
      cases hh : handle_point method data (create_tables s).db with
      | ok v =>
          obtain ⟨resp, db2⟩ := v
          exact ⟨rfl, rfl⟩
      | error f => exact ⟨rfl, rfl⟩
  | pointGet i => exact ⟨rfl, rfl⟩
  | polygonCU method data =>
      simp only [handleRequest]
      cases hh : handle_polygon method data (create_tables s).db with
      | ok v =>
          obtain ⟨resp, db2⟩ := v
          exact ⟨rfl, rfl⟩
      | error f => exact ⟨rfl, rfl⟩
  | polygonGet i => exact ⟨rfl, rfl⟩

theorem runAll_inited (rs : List Request) (s : AppState)
    (h : s.tables_initialized = true) :
    (runAll s rs).tables_initialized = true ∧
    (runAll s rs).createAllCount = s.createAllCount := by
  induction rs generalizing s with
  | nil => exact ⟨h, rfl⟩
  | cons r t ih =>
      simp only [runAll]
      have h1 := handleRequest_flag s r
      rw [create_tables_inited s h] at h1
      have h2 := ih (handleRequest s r).2 (h1.1.trans h)
      exact ⟨h2.1, by rw [h2.2, h1.2]⟩

/-- C6: in any sequential run, the first inbound request of any kind
triggers `db.create_all()` exactly once, and it is never executed again:
starting the process (flag false, zero executions) and serving any
nonempty request sequence leaves the execution counter at exactly 1 with
the flag set (first conjunct); and from any state in which the flag is
already set, serving any further request keeps the flag set and leaves
the execution counter untouched (second conjunct: the flag never resets
and `db.create_all()` is never re-invoked). -/
theorem c6_schema_init_exactly_once :
    (∀ rs : List Request, rs ≠ [] →
       (runAll AppState.init rs).createAllCount = 1 ∧
       (runAll AppState.init rs).tables_initialized = true) ∧
    (∀ s : AppState, ∀ r : Request, s.tables_initialized = true →
       (handleRequest s r).2.tables_initialized = true ∧
       (handleRequest s r).2.createAllCount = s.createAllCount) := by
  constructor
  · intro rs hne
    cases rs with
    | nil => exact absurd rfl hne
    | cons r t =>
        simp only [runAll]
        have h1 := handleRequest_flag AppState.init r
        have h2 : create_tables AppState.init =
            ⟨DB.empty, true, 1⟩ := rfl
        rw [h2] at h1
        have h3 := runAll_inited t (handleRequest AppState.init r).2 h1.1
        exact ⟨by rw [h3.2, h1.2], h3.1⟩
  · intro s r h
    have h1 := handleRequest_flag s r
    rw [create_tables_inited s h] at h1
    exact ⟨h1.1.trans h, h1.2⟩

theorem c6_witness :
    ((runAll AppState.init [Request.pointGet 1, Request.polygonGet 2]).createAllCount = 1 ∧
     (runAll AppState.init [Request.pointGet 1, Request.polygonGet 2]).tables_initialized = true) ∧
    ((handleRequest ⟨DB.empty, true, 1⟩ (Request.pointGet 3)).2.tables_initialized = true ∧
     (handleRequest ⟨DB.empty, true, 1⟩ (Request.pointGet 3)).2.createAllCount = 1) :=
  ⟨c6_schema_init_exactly_once.1 [Request.pointGet 1, Request.polygonGet 2]
     (List.cons_ne_nil _ _),
   c6_schema_init_exactly_once.2 ⟨DB.empty, true, 1⟩ (Request.pointGet 3) rfl⟩

/-- C8: every persisted Point row carries all four fields — `id` is the
table key and `PointRec` makes `name`, `latitude`, `longitude` total,
mirroring the `nullable=False` columns, so no representable store holds
a partial row — and no operation commits a partially-populated row: a
request that fails (a `KeyError` on a missing field, raised before
`db.session.commit()` is ever reached) leaves the entire store, hence
every stored row, exactly as it was before the request. -/
theorem c8_failed_request_commits_nothing (s : AppState) (r : Request) (f : Fault)
    (h : (handleRequest s r).1 = Except.error f) :
    (handleRequest s r).2.db = s.db := by
  cases r with
  | pointCU method data =>
      simp only [handleRequest] at h ⊢
      cases hh : handle_point method data (create_tables s).db with
      | ok v =>
          obtain ⟨resp, db2⟩ := v
          rw [hh] at h
          simp at h
      | error f2 => exact create_tables_db s
  | pointGet i =>
      simp only [handleRequest] at h
      exact absurd h (by simp)
  | polygonCU method data =>
      simp only [handleRequest] at h ⊢
      cases hh : handle_polygon method data (create_tables s).db with
      | ok v =>
          obtain ⟨resp, db2⟩ := v
          rw [hh] at h
          simp at h
      | error f2 => exact create_tables_db s
  | polygonGet i =>
      simp only [handleRequest] at h
      exact absurd h (by simp)

theorem c8_witness :
    (handleRequest ⟨⟨[(1, ⟨"A", 1, 2⟩)], [], 2, 1⟩, true, 1⟩
        (Request.pointCU Method.PUT ⟨some 1, some "B", none, some 4⟩)).2.db =
      ⟨[(1, ⟨"A", 1, 2⟩)], [], 2, 1⟩ :=
  c8_failed_request_commits_nothing ⟨⟨[(1, ⟨"A", 1, 2⟩)], [], 2, 1⟩, true, 1⟩
    (Request.pointCU Method.PUT ⟨some 1, some "B", none, some 4⟩)
    (Fault.keyError "latitude") rfl

/-- C9: a POST body missing any required field (`name`, `latitude`,
`longitude` for a point; `name`, `coordinates` for a polygon) makes the
create handler fail with an unhandled `KeyError` — a fault, not a
structured 400 response — and the request persists no row: the store
after the request is exactly the store before it. -/
theorem c9_post_missing_field_faults :
    (∀ s : AppState, ∀ data : PointBody,
       (data.name = none ∨ data.latitude = none ∨ data.longitude = none) →
       (∃ k, (handleRequest s (Request.pointCU Method.POST data)).1 =
          Except.error (Fault.keyError k)) ∧
       (handleRequest s (Request.pointCU Method.POST data)).2.db = s.db) ∧
    (∀ s : AppState, ∀ data : PolygonBody,
       (data.name = none ∨ data.coordinates = none) →
       (∃ k, (handleRequest s (Request.polygonCU Method.POST data)).1 =
          Except.error (Fault.keyError k)) ∧
       (handleRequest s (Request.polygonCU Method.POST data)).2.db = s.db) := by
  constructor
  · intro s data hmiss
    obtain ⟨di, dn, dla, dlo⟩ := data
    have hdb := create_tables_db s
    cases dn with
    | none => exact ⟨⟨"name", rfl⟩, hdb⟩
    | some n =>
        cases dla with
        | none => exact ⟨⟨"latitude", rfl⟩, hdb⟩
        | some la =>
            cases dlo with
            | none => exact ⟨⟨"longitude", rfl⟩, hdb⟩
            | some lo =>
                rcases hmiss with hcon | hcon | hcon <;> exact absurd hcon (by simp)
  · intro s data hmiss
    obtain ⟨dj, dn, dc⟩ := data
    have hdb := create_tables_db s
    cases dn with
    | none => exact ⟨⟨"name", rfl⟩, hdb⟩
    | some n =>
        cases dc with
        | none => exact ⟨⟨"coordinates", rfl⟩, hdb⟩
        | some c =>
            rcases hmiss with hcon | hcon <;> exact absurd hcon (by simp)

theorem c9_witness :
    ((∃ k, (handleRequest AppState.init
        (Request.pointCU Method.POST ⟨none, some "A", none, some 2⟩)).1 =
          Except.error (Fault.keyError k)) ∧
     (handleRequest AppState.init
        (Request.pointCU Method.POST ⟨none, some "A", none, some 2⟩)).2.db =
       AppState.init.db) ∧
    ((∃ k, (handleRequest AppState.init
        (Request.polygonCU Method.POST ⟨none, some "P", none⟩)).1 =
          Except.error (Fault.keyError k)) ∧
     (handleRequest AppState.init
        (Request.polygonCU Method.POST ⟨none, some "P", none⟩)).2.db =
       AppState.init.db) :=
  ⟨c9_post_missing_field_faults.1 AppState.init ⟨none, some "A", none, some 2⟩
     (Or.inr (Or.inl rfl)),
   c9_post_missing_field_faults.2 AppState.init ⟨none, some "P", none⟩
     (Or.inr rfl)⟩

/-- C10: every handler is deterministic and its observable behavior is a
function of the request and the storage contents alone: for any two
process states holding the same store — they may differ in the
bootstrap flag or in how many times `db.create_all()` ran — any request
yields the same response (status and body, or the same fault) and the
same final store.  Instantiating both states to one state gives that
running a handler twice from identical state produces identical
responses and identical final storage. -/
theorem c10_handlers_deterministic (sa sb : AppState) (r : Request)
    (h : sa.db = sb.db) :
    (handleRequest sa r).1 = (handleRequest sb r).1 ∧
    (handleRequest sa r).2.db = (handleRequest sb r).2.db := by
  have hdb : (create_tables sa).db = (create_tables sb).db := by
    rw [create_tables_db, create_tables_db, h]
  cases r with
  | pointCU method data =>
      simp only [handleRequest]
      rw [hdb]
      cases hh : handle_point method data (create_tables sb).db with
      | ok v =>
          obtain ⟨resp, db2⟩ := v
          exact ⟨rfl, rfl⟩
      | error f => exact ⟨rfl, hdb⟩
  | pointGet i =>
      simp only [handleRequest]
      rw [hdb]
      exact ⟨rfl, rfl⟩
  | polygonCU method data =>
      simp only [handleRequest]
      rw [hdb]
      cases hh : handle_polygon method data (create_tables sb).db with
      | ok v =>
          obtain ⟨resp, db2⟩ := v
          exact ⟨rfl, rfl⟩
      | error f => exact ⟨rfl, hdb⟩
  | polygonGet i =>
      simp only [handleRequest]
      rw [hdb]
      exact ⟨rfl, rfl⟩

theorem c10_witness :
    (handleRequest ⟨DB.empty, false, 0⟩ (Request.pointGet 1)).1 =
      (handleRequest ⟨DB.empty, true, 7⟩ (Request.pointGet 1)).1 ∧
    (handleRequest ⟨DB.empty, false, 0⟩ (Request.pointGet 1)).2.db =
      (handleRequest ⟨DB.empty, true, 7⟩ (Request.pointGet 1)).2.db :=
  c10_handlers_deterministic ⟨DB.empty, false, 0⟩ ⟨DB.empty, true, 7⟩
    (Request.pointGet 1) rfl

/-! ## The auto-increment invariant is preserved by every request, so the
`WF` hypothesis of the creation theorems holds in every reachable state. -/

theorem WF_point_append (db : DB) (v : PointRec) (hwf : WF db) :
    WF { db with points := db.points ++ [(db.nextPointId, v)],
                 nextPointId := db.nextPointId + 1 } := by
  constructor
  · intro p hp
    rcases List.mem_append.mp hp with h1 | h1
    · exact Nat.lt_succ_of_lt (hwf.1 p h1)
    · rcases List.mem_singleton.mp h1 with rfl
      exact Nat.lt_succ_self _
  · intro q hq
    exact hwf.2 q hq

theorem WF_polygon_append (db : DB) (v : PolygonRec) (hwf : WF db) :
    WF { db with polygons := db.polygons ++ [(db.nextPolygonId, v)],
                 nextPolygonId := db.nextPolygonId + 1 } := by
  constructor
  · intro p hp
    exact hwf.1 p hp
  · intro q hq
    rcases List.mem_append.mp hq with h1 | h1
    · exact Nat.lt_succ_of_lt (hwf.2 q h1)
    · rcases List.mem_singleton.mp h1 with rfl
      exact Nat.lt_succ_self _

theorem WF_point_update (db : DB) (i : Nat) (v : PointRec) (hwf : WF db) :
    WF { db with points := updateById db.points i v } := by
  constructor
  · intro p hp
    have h1 : p.1 ∈ (updateById db.points i v).map Prod.fst :=
      List.mem_map_of_mem _ hp
    rw [keys_updateById] at h1
    rcases List.mem_map.mp h1 with ⟨q, hq, hq1⟩
    exact hq1 ▸ hwf.1 q hq
  · intro q hq
    exact hwf.2 q hq

theorem WF_polygon_update (db : DB) (i : Nat) (v : PolygonRec) (hwf : WF db) :
    WF { db with polygons := updateById db.polygons i v } := by
  constructor
  · intro p hp
    exact hwf.1 p hp
  · intro q hq
    have h1 : q.1 ∈ (updateById db.polygons i v).map Prod.fst :=
      List.mem_map_of_mem _ hq
    rw [keys_updateById] at h1
    rcases List.mem_map.mp h1 with ⟨p, hp, hp1⟩
    exact hp1 ▸ hwf.2 p hp

theorem WF_handle_point_ok (method : Method) (data : PointBody) (db : DB)
    (resp : Resp) (db2 : DB) (hwf : WF db)
    (h : handle_point method data db = Except.ok (resp, db2)) : WF db2 := by
  obtain ⟨di, dn, dla, dlo⟩ := data
  cases method with
  | POST =>
      cases dn with
      | none =>
          exact absurd h
            (by simp [handle_point, getKey, Except.instMonad, Except.bind])
      | some n =>
          cases dla with
          | none =>
              exact absurd h
                (by simp [handle_point, getKey, Except.instMonad, Except.bind])
          | some la =>
              cases dlo with
              | none =>
                  exact absurd h
                    (by simp [handle_point, getKey, Except.instMonad, Except.bind,
                      Except.map])
              | some lo =>
                  rw [handle_point_post_ok] at h
                  cases h
                  exact WF_point_append db ⟨n, la, lo⟩ hwf
  | PUT =>
      cases di with
      | none =>
          exact absurd h
            (by simp [handle_point, getKey, Except.instMonad, Except.bind])
      | some i =>
          cases hfind : findById db.points i with
          | none =>
              rw [handle_point_put_miss _ _ _ _ _ hfind] at h
              cases h
              exact hwf
          | some w =>
              cases dn with
              | none =>
                  exact absurd h
                    (by simp [handle_point, getKey, hfind, Except.instMonad,
                      Except.bind])
              | some n =>
                  cases dla with
                  | none =>
                      exact absurd h
                        (by simp [handle_point, getKey, hfind, Except.instMonad,
                          Except.bind])
                  | some la =>
                      cases dlo with
                      | none =>
                          exact absurd h
                            (by simp [handle_point, getKey, hfind, Except.instMonad,
                              Except.bind, Except.map])
                      | some lo =>
                          rw [handle_point_put_hit _ _ _ _ _ w hfind] at h
                          cases h
                          exact WF_point_update db i ⟨n, la, lo⟩ hwf

theorem WF_handle_polygon_ok (method : Method) (data : PolygonBody) (db : DB)
    (resp : Resp) (db2 : DB) (hwf : WF db)
    (h : handle_polygon method data db = Except.ok (resp, db2)) : WF db2 := by
  obtain ⟨dj, dn, dc⟩ := data
  cases method with
  | POST =>
      cases dn with
      | none =>
          exact absurd h
            (by simp [handle_polygon, getKey, Except.instMonad, Except.bind])
      | some n =>
          cases dc with
          | none =>
              exact absurd h
                (by simp [handle_polygon, getKey, Except.instMonad, Except.bind,
                  Except.map])
          | some c =>
              rw [handle_polygon_post_ok] at h
              cases h
              exact WF_polygon_append db ⟨n, c⟩ hwf
  | PUT =>
      cases dj with
      | none =>
          exact absurd h
            (by simp [handle_polygon, getKey, Except.instMonad, Except.bind])
      | some i =>
          cases hfind : findById db.polygons i with
          | none =>
              rw [handle_polygon_put_miss _ _ _ _ hfind] at h
              cases h
              exact hwf
          | some w =>
              cases dn with
              | none =>
                  exact absurd h
                    (by simp [handle_polygon, getKey, hfind, Except.instMonad,
                      Except.bind])
              | some n =>
                  cases dc with
                  | none =>
                      exact absurd h
                        (by simp [handle_polygon, getKey, hfind, Except.instMonad,
                          Except.bind, Except.map])
                  | some c =>
                      rw [handle_polygon_put_hit _ _ _ _ w hfind] at h
                      cases h
                      exact WF_polygon_update db i ⟨n, c⟩ hwf

theorem WF_handleRequest (s : AppState) (r : Request) (hwf : WF s.db) :
    WF (handleRequest s r).2.db := by
  have hwf1 : WF (create_tables s).db := by
    rw [create_tables_db]
    exact hwf
  cases r with
  | pointCU method data =>
      simp only [handleRequest]
      cases hh : handle_point method data (create_tables s).db with
      | ok v =>
          obtain ⟨resp, db2⟩ := v
          exact WF_handle_point_ok method data _ resp db2 hwf1 hh
      | error f => exact hwf1
  | pointGet i => exact hwf1
  | polygonCU method data =>
      simp only [handleRequest]
      cases hh : handle_polygon method data (create_tables s).db with
      | ok v =>
          obtain ⟨resp, db2⟩ := v
          exact WF_handle_polygon_ok method data _ resp db2 hwf1 hh
      | error f => exact hwf1
  | polygonGet i => exact hwf1

theorem WF_runAll (rs : List Request) (s : AppState) (hwf : WF s.db) :
    WF (runAll s rs).db := by
  induction rs generalizing s with
  | nil => exact hwf
  | cons r t ih => exact ih (handleRequest s r).2 (WF_handleRequest s r hwf)
